import Mathlib

/-!
# Verification of the gossh session-protocol layer

A shallow embedding of the gossh SSH toolkit (package `pkg/ssh`, file
`server.go`, and the client driver `cmd/client.go`), together with theorems
settling behavioural claims about it.

Modelling conventions:
* Go byte strings are modelled as Lean `String`s whose characters are the
  bytes (code points 0–255); for the ASCII data appearing in this program the
  Go byte indexing and the Lean character indexing coincide.
* Side-effecting handlers are modelled as functions producing a trace of
  channel actions, in the order the Go code performs them.
* The accept loop and the per-channel request loop are modelled as functions
  over a finite list of incoming events; processing such a list corresponds
  to a finite prefix of the (unbounded) Go loop.
-/

namespace Gossh

/-- The channel-side effects a request handler can perform, in the order the
Go code issues them: a write to the channel's byte stream, an out-of-band
`SendRequest`, a reply to the current request, closing the channel, and
attaching the interactive terminal (`createTerminal`). -/
inductive ChanAction where
  | write (data : String)
  | sendRequest (name : String) (wantReply : Bool) (payload : List Nat)
  | reply (ok : Bool)
  | close
  | startTerminal
  deriving DecidableEq

/-- `execSomething` from `server.go` lines 147–154: the command executor.
`conn.Conn.User()` is passed as `user`; the raw payload bytes, coerced to a
string, are passed as `payload`. -/
def execSomething (user : String) (payload : String) : String :=
  if payload = "whoami" then "You are: " ++ user ++ "\n"
  else "Command Not Found: " ++ payload ++ "\n"

/-- The four bytes `{0, 0, 0, 6}` that `handleConnection` hands to
`bytes.TrimPrefix` on the `exec` path (`server.go` line 105). -/
def execTrimBytes : List Char := ['\x00', '\x00', '\x00', '\x06']

/-- The payload transformation the `exec` handler applies before calling the
executor: `bytes.TrimPrefix(req.Payload, []byte{0, 0, 0, 6})` — if the
payload begins with those four bytes they are removed, otherwise the payload
is passed through unchanged (`server.go` line 105). -/
def trimExecPayload (payload : String) : String :=
  if payload.toList.take 4 = execTrimBytes then String.mk (payload.toList.drop 4)
  else payload

/-- Big-endian 4-byte encoding of a 32-bit length, as characters/bytes. -/
def u32be (n : Nat) : List Char :=
  [Char.ofNat (n / 16777216 % 256), Char.ofNat (n / 65536 % 256),
   Char.ofNat (n / 256 % 256), Char.ofNat (n % 256)]

/-- The protocol-defined wire encoding of an `exec` request payload, written
from the spec's words (§4.3, §6): a 4-byte big-endian length followed by
exactly that many command bytes. This is the reference encoding the code's
`trimExecPayload` is compared against. -/
def lengthPrefixedPayload (cmd : String) : String :=
  String.mk (u32be cmd.length) ++ cmd

/-- One out-of-band request on a session channel, as discriminated by the
`switch req.Type` in `handleConnection` (`server.go` lines 103–116). -/
inductive SessionRequest where
  | exec (payload : String)
  | shell
  | ptyReq
  | other (t : String)
  deriving DecidableEq

/-- The body of the per-channel request loop (`server.go` lines 101–117):
the trace of channel actions one request produces. `exec` writes the
executor's result, sends a fixed all-zero `exit-status`, replies success and
closes the channel; `shell` replies success; `pty-req` attaches the
interactive terminal; any other type replies failure. -/
def handleRequest (user : String) : SessionRequest → List ChanAction
  | .exec payload =>
      [ .write (execSomething user (trimExecPayload payload)),
        .sendRequest "exit-status" false [0, 0, 0, 0],
        .reply true,
        .close ]
  | .shell => [ .reply true ]
  | .ptyReq => [ .startTerminal ]
  | .other _ => [ .reply false ]

/-- The per-channel request loop (`for req := range in`, `server.go`
lines 101–117): requests are handled one at a time, in arrival order, with
no per-channel state carried between them. -/
def requestLoop (user : String) (reqs : List SessionRequest) : List ChanAction :=
  (reqs.map (handleRequest user)).flatten

/-- C6: for every authenticated user `u`, the command executor applied to
`"whoami"` returns exactly `"You are: " ++ u ++ "\n"`, and applied to any
other command `c` returns exactly `"Command Not Found: " ++ c ++ "\n"`
(it is a pure function of its arguments, so it performs no side effect). -/
theorem execSomething_whoami_and_not_found (u c : String) (h : c ≠ "whoami") :
    execSomething u "whoami" = "You are: " ++ u ++ "\n" ∧
    execSomething u c = "Command Not Found: " ++ c ++ "\n" := by
  refine ⟨by simp [execSomething], ?_⟩
  simp [execSomething, h]

theorem execSomething_whoami_and_not_found_witness :
    execSomething "alice" "whoami" = "You are: " ++ "alice" ++ "\n" ∧
    execSomething "alice" "rm -rf /" = "Command Not Found: " ++ "rm -rf /" ++ "\n" :=
  execSomething_whoami_and_not_found "alice" "rm -rf /" (by decide)

/-- C7: for every exec request, recognized command or not, the handler's
trace is: write the executor's result, send an `exit-status` request whose
payload is the fixed four zero bytes, reply, close the channel — in that
order, ending with the close (exec is a one-shot terminal operation). -/
theorem exec_request_trace (user payload : String) :
    handleRequest user (.exec payload) =
      [ ChanAction.write (execSomething user (trimExecPayload payload)),
        ChanAction.sendRequest "exit-status" false [0, 0, 0, 0],
        ChanAction.reply true,
        ChanAction.close ] := rfl

/-- C1 (failing input): the exec payload decoder is not the protocol's
length-prefixed decode. On the length-prefixed encoding of the two-byte
command `"ls"` the hardcoded `{0,0,0,6}` trim does not fire, so the decoded
command keeps its length bytes and is not `"ls"`; only on a six-byte command
such as `"whoami"` does the decode happen to agree with the protocol. -/
theorem exec_payload_decode_misparses_ls :
    trimExecPayload (lengthPrefixedPayload "ls") ≠ "ls" ∧
    trimExecPayload (lengthPrefixedPayload "whoami") = "whoami" := by
  decide

/-- C2 (failing input): the request loop keeps no per-channel state, so an
`exec` request arriving after a `pty-req` has attached the interactive
terminal is executed exactly like any other exec — the handler writes the
result, replies success and closes — rather than being rejected (a rejection
would be a `reply false` with no other action). -/
theorem exec_after_pty_req_is_executed :
    requestLoop "alice" [.ptyReq, .exec (lengthPrefixedPayload "whoami")] =
      [ ChanAction.startTerminal,
        ChanAction.write "You are: alice\n",
        ChanAction.sendRequest "exit-status" false [0, 0, 0, 0],
        ChanAction.reply true,
        ChanAction.close ] ∧
    ChanAction.reply false ∉
      requestLoop "alice" [.ptyReq, .exec (lengthPrefixedPayload "whoami")] := by
  decide

/-- The outcome of one channel-open event in `handleConnection`
(`server.go` lines 82–95): a channel whose declared type is not `"session"`
is rejected with the `UnknownChannelType` reason code and the message
`"unknown channel type"`; a `"session"` channel is accepted. -/
inductive OpenOutcome where
  | rejected (reason : String) (message : String)
  | accepted
  deriving DecidableEq

/-- The dispatch on one channel-open event (`server.go` lines 87–95). -/
def handleChannelOpen (chanType : String) : OpenOutcome :=
  if chanType ≠ "session" then .rejected "UnknownChannelType" "unknown channel type"
  else .accepted

/-- The channel-open loop of `handleConnection` (`for newChannel := range
chans`, `server.go` lines 82–119): every event is dispatched independently
and the loop never exits early, so the connection survives rejections. -/
def channelOpenLoop (chanTypes : List String) : List OpenOutcome :=
  chanTypes.map handleChannelOpen

/-- C8: a channel-open event whose type is not `"session"` is rejected with
reason `UnknownChannelType` / `"unknown channel type"`, and the connection
is not torn down: the remaining channel-open events are processed exactly
as they would have been. -/
theorem non_session_channel_rejected (t : String) (rest : List String)
    (h : t ≠ "session") :
    channelOpenLoop (t :: rest) =
      OpenOutcome.rejected "UnknownChannelType" "unknown channel type" ::
        channelOpenLoop rest := by
  simp [channelOpenLoop, handleChannelOpen, h]

theorem non_session_channel_rejected_witness :
    channelOpenLoop ["shell-proxy", "session"] =
      OpenOutcome.rejected "UnknownChannelType" "unknown channel type" ::
        channelOpenLoop ["session"] :=
  non_session_channel_rejected "shell-proxy" ["session"] (by decide)

/-- State of the interactive terminal attached to a channel by
`createTerminal` (`server.go` lines 122–145): the lines written so far via
`termInstance.Write`, and whether `channel.Close()` has been called. -/
structure TermState where
  output : List String
  closed : Bool
  deriving DecidableEq

/-- The `switch line` body of one iteration of the interactive loop
(`server.go` lines 132–142): `"whoami"` writes the executor's result, the
empty line does nothing, `"quit"` writes `"Goodbye!\n"` and closes the
channel, anything else writes `"Command not found\n"`. -/
def termStep (user : String) (s : TermState) (line : String) : TermState :=
  if line = "whoami" then { s with output := s.output ++ [execSomething user "whoami"] }
  else if line = "" then s
  else if line = "quit" then { output := s.output ++ ["Goodbye!\n"], closed := true }
  else { s with output := s.output ++ ["Command not found\n"] }

/-- The interactive read-eval-print loop of `createTerminal` (`server.go`
lines 126–143) over a list of input lines. Each iteration first calls
`termInstance.ReadLine()`: once the channel has been closed, that read
fails and the loop breaks without consuming any further line (the terminal
reads from the channel's byte stream, and a read on a closed channel
errors); end of input likewise errors the read and ends the loop. -/
def termLoop (user : String) : List String → TermState → TermState
  | [], s => s
  | line :: rest, s =>
      if s.closed then s else termLoop user rest (termStep user s line)

theorem termLoop_closed (user : String) (lines : List String) (s : TermState)
    (h : s.closed = true) : termLoop user lines s = s := by
  cases lines with
  | nil => rfl
  | cons line rest => simp [termLoop, h]

/-- C5: on a channel whose terminal is still open, reading the line
`"quit"` appends exactly the one farewell line `"Goodbye!\n"`, closes the
channel, and terminates the loop — the final state does not depend on
whatever input lines follow, so no further line is consumed; reading an
empty line neither closes the channel nor writes any output. -/
theorem quit_and_empty_line_behavior (user : String) (rest : List String)
    (s : TermState) (h : s.closed = false) :
    termLoop user ("quit" :: rest) s =
      { output := s.output ++ ["Goodbye!\n"], closed := true } ∧
    termLoop user ("" :: rest) s = termLoop user rest s ∧
    termStep user s "" = s := by
  refine ⟨?_, ?_, by simp [termStep]⟩
  · have h1 : termStep user s "quit" =
        { output := s.output ++ ["Goodbye!\n"], closed := true } := by
      simp [termStep]
    rw [termLoop, if_neg (by simp [h]), h1]
    exact termLoop_closed user rest _ rfl
  · rw [termLoop, if_neg (by simp [h])]
    simp [termStep]

theorem quit_and_empty_line_behavior_witness :
    termLoop "alice" ("quit" :: ["ls"]) ⟨[], false⟩ =
      { output := ([] : List String) ++ ["Goodbye!\n"], closed := true } ∧
    termLoop "alice" ("" :: ["ls"]) ⟨[], false⟩ = termLoop "alice" ["ls"] ⟨[], false⟩ ∧
    termStep "alice" ⟨[], false⟩ "" = ⟨[], false⟩ :=
  quit_and_empty_line_behavior "alice" ["ls"] ⟨[], false⟩ rfl

/-- One turn of the accept loop of `StartServer` (`server.go` lines 55–77):
either `listener.Accept()` itself fails, or the accepted connection's
handshake (`ssh.NewServerConn`) fails, or a connection is established and
dispatched to its own goroutines. -/
inductive AcceptEvent where
  | acceptFailure (msg : String)
  | handshakeFailure (msg : String)
  | connection
  deriving DecidableEq

/-- The accept loop of `StartServer` over a finite prefix of events,
returning `some err` if the loop makes `StartServer` return with that error
and `none` if the loop is still running after the events. In the code every
arm of the loop body ends in `continue` (accept failures and handshake
failures are printed, connections are dispatched), so the loop never makes
the function return (`server.go` lines 55–77). -/
def acceptLoop : List AcceptEvent → Option String
  | [] => none
  | .acceptFailure _ :: rest => acceptLoop rest
  | .handshakeFailure _ :: rest => acceptLoop rest
  | .connection :: rest => acceptLoop rest

/-- The authorized-keys parse loop of `StartServer` (`server.go` lines
16–24), with the parse of each textual entry abstracted as an
already-computed `Except`: `.ok m` is an entry whose key marshals to the
canonical bytes `m`, `.error e` a malformed entry. The loop aborts on the
first malformed entry; otherwise it yields the marshaled keys in file
order. -/
def loadAuthorizedKeysLoop : List (Except String String) → Except String (List String)
  | [] => .ok []
  | .error e :: _ => .error e
  | .ok m :: rest =>
      match loadAuthorizedKeysLoop rest with
      | .error e => .error e
      | .ok ms => .ok (m :: ms)

/-- `StartServer` (`server.go` lines 14–78) with its external effects
abstracted: the authorized-keys entries as parse results, the private-key
parse and the listener bind as `Except`s, and the accept loop fed a finite
event prefix. Returns `some err` when `StartServer` returns the error
`err`, and `none` when it is still serving. -/
def startServer (authKeyEntries : List (Except String String))
    (privateKeyParse : Except String Unit) (listen : Except String Unit)
    (events : List AcceptEvent) : Option String :=
  match loadAuthorizedKeysLoop authKeyEntries with
  | .error e => some ("parse authorized keys error: " ++ e)
  | .ok _ =>
      match privateKeyParse with
      | .error e => some ("ParsePrivateKey error: " ++ e)
      | .ok _ =>
          match listen with
          | .error e => some ("listen error: " ++ e)
          | .ok _ => acceptLoop events

/-- C3 (counterexample): an accept error on the listener does not terminate
`StartServer` — the loop prints it and continues (`continue` at
`server.go` line 59), so no error is surfaced to the caller. The claim says
a fatal accept error terminates the serve function with that error as its
return value. -/
theorem accept_error_does_not_terminate_serve :
    startServer [] (Except.ok ()) (Except.ok ())
      [AcceptEvent.acceptFailure "use of closed network connection"] = none := rfl

/-- C3 (amended): a single connection's failure never terminates the serve
loop — in fact no accept-loop event (accept failure, handshake failure or
successful connection) ever does; a bind failure of the listener, and the
setup parse failures before it, terminate `StartServer` with the error
surfaced as its return value. -/
theorem serve_loop_failure_semantics (events : List AcceptEvent)
    (entries : List (Except String String)) (ms : List String) (e : String)
    (h : loadAuthorizedKeysLoop entries = Except.ok ms) :
    acceptLoop events = none ∧
    startServer entries (Except.ok ()) (Except.error e) events =
      some ("listen error: " ++ e) ∧
    startServer entries (Except.ok ()) (Except.ok ()) events = acceptLoop events := by
  have hloop : acceptLoop events = none := by
    induction events with
    | nil => rfl
    | cons ev rest ih => cases ev <;> simpa [acceptLoop] using ih
  refine ⟨hloop, ?_, ?_⟩ <;> simp [startServer, h]

theorem serve_loop_failure_semantics_witness :
    acceptLoop [AcceptEvent.handshakeFailure "kex failed"] = none ∧
    startServer [] (Except.ok ()) (Except.error "address already in use")
      [AcceptEvent.handshakeFailure "kex failed"] =
      some ("listen error: " ++ "address already in use") ∧
    startServer [] (Except.ok ()) (Except.ok ())
      [AcceptEvent.handshakeFailure "kex failed"] =
      acceptLoop [AcceptEvent.handshakeFailure "kex failed"] :=
  serve_loop_failure_semantics [AcceptEvent.handshakeFailure "kex failed"] [] [] "address already in use" rfl

/-- The map `authorizedKeysMap` built by `StartServer` (`server.go` lines
15–24): starting from the empty map, each entry's canonical marshaled bytes
are inserted with value `true`; lookup of an absent key yields `false`
(Go's zero value for `bool`). -/
def buildAuthorizedKeysMap (marshaledKeys : List String) : String → Bool :=
  marshaledKeys.foldl (fun m k => fun cand => if cand = k then true else m cand)
    (fun _ => false)

/-- The result of the public-key authentication callback: either permission
with the `pubkey-fp` extension recording the key's fingerprint, or an
authentication error. -/
inductive AuthResult where
  | permitted (fingerprintExt : String)
  | denied (err : String)
  deriving DecidableEq

/-- The `PublicKeyCallback` of the server configuration (`server.go` lines
27–37): the offered key is permitted iff its canonical marshaled bytes are
in the map, in which case its fingerprint is recorded; otherwise the
callback returns the error `unknown public key for "<user>"`. The marshaled
bytes and the fingerprint of the offered key are passed in, abstracting
`pubKey.Marshal()` and `ssh.FingerprintSHA256(pubKey)`. -/
def publicKeyCallback (authorizedKeysMap : String → Bool) (user : String)
    (pubKeyMarshaled : String) (fingerprint : String) : AuthResult :=
  if authorizedKeysMap pubKeyMarshaled then .permitted fingerprint
  else .denied ("unknown public key for \"" ++ user ++ "\"")

theorem buildAuthorizedKeysMap_foldl_mem (ks : List String) (m : String → Bool)
    (k : String) :
    (ks.foldl (fun m k => fun cand => if cand = k then true else m cand) m) k = true ↔
      (m k = true ∨ k ∈ ks) := by
  induction ks generalizing m with
  | nil => simp
  | cons a ks ih =>
      rw [List.foldl_cons, ih]
      by_cases hka : k = a <;> simp [hka, or_assoc]

theorem buildAuthorizedKeysMap_mem (ks : List String) (k : String) :
    buildAuthorizedKeysMap ks k = true ↔ k ∈ ks := by
  rw [buildAuthorizedKeysMap, buildAuthorizedKeysMap_foldl_mem]
  simp

/-- C9: membership in the authorized-key set is decided by canonical
marshaled bytes and is order-independent — loading the same entries in any
order yields a map giving identical answers for every candidate — and a key
whose marshaled bytes are not among the loaded entries is never a member:
the authentication callback denies it for every user. -/
theorem authorized_keys_order_independent_and_sound (l1 l2 : List String)
    (hperm : l1.Perm l2) (cand : String) (hni : cand ∉ l1) (user fp k : String) :
    buildAuthorizedKeysMap l1 k = buildAuthorizedKeysMap l2 k ∧
    publicKeyCallback (buildAuthorizedKeysMap l1) user cand fp =
      AuthResult.denied ("unknown public key for \"" ++ user ++ "\"") := by
  constructor
  · have h1 := buildAuthorizedKeysMap_mem l1 k
    have h2 := buildAuthorizedKeysMap_mem l2 k
    have hmem : k ∈ l1 ↔ k ∈ l2 := hperm.mem_iff
    cases hb1 : buildAuthorizedKeysMap l1 k <;> cases hb2 : buildAuthorizedKeysMap l2 k
    · rfl
    · exact absurd (h1.mpr (hmem.mpr (h2.mp hb2))) (by simp [hb1])
    · exact absurd (h2.mpr (hmem.mp (h1.mp hb1))) (by simp [hb2])
    · rfl
  · have hfalse : buildAuthorizedKeysMap l1 cand = false := by
      cases hb : buildAuthorizedKeysMap l1 cand
      · rfl
      · exact absurd ((buildAuthorizedKeysMap_mem l1 cand).mp hb) hni
    simp [publicKeyCallback, hfalse]

theorem authorized_keys_order_independent_and_sound_witness :
    buildAuthorizedKeysMap ["keyA", "keyB"] "keyB" =
      buildAuthorizedKeysMap ["keyB", "keyA"] "keyB" ∧
    publicKeyCallback (buildAuthorizedKeysMap ["keyA", "keyB"]) "alice" "keyC" "fpC" =
      AuthResult.denied ("unknown public key for \"" ++ "alice" ++ "\"") :=
  authorized_keys_order_independent_and_sound ["keyA", "keyB"] ["keyB", "keyA"]
    (by decide) "keyC" (by decide) "alice" "fpC" "keyB"

/-- C10: with empty (zero-byte) authorized-keys input the parse loop body
never runs, so startup succeeds with an empty key set and `StartServer`
proceeds to serve; the authentication callback built over that empty map
then denies every offered key for every user. -/
theorem empty_authorized_keys_denies_all (user k fp : String)
    (events : List AcceptEvent) :
    loadAuthorizedKeysLoop [] = Except.ok [] ∧
    startServer [] (Except.ok ()) (Except.ok ()) events = acceptLoop events ∧
    publicKeyCallback (buildAuthorizedKeysMap []) user k fp =
      AuthResult.denied ("unknown public key for \"" ++ user ++ "\"") := by
  refine ⟨rfl, rfl, ?_⟩
  simp [publicKeyCallback, buildAuthorizedKeysMap]

/-- An error returned by the remote session on the client side
(`cmd/client.go`): either an `*ssh.ExitError` carrying the remote command's
reported exit status, or any other session/connection error. -/
inductive SessionError where
  | exitError (status : Nat)
  | otherError (msg : String)
  deriving DecidableEq

/-- The process exit code produced by the client's non-empty-command branch
(`cmd/client.go` lines 147–170): `err = session.Run(command)`; any non-nil
error — including a remote `ExitError` — prints a failure message and calls
`os.Exit(1)`; a nil error prints success and the process later exits 0. -/
def execModeExitCode (runResult : Option SessionError) : Nat :=
  match runResult with
  | some _ => 1
  | none => 0

/-- The process exit code produced by the client's interactive-shell branch
(`cmd/client.go` lines 199–208): `session.Wait()`; an `*ssh.ExitError` exits
with the remote's reported status via `os.Exit(e.ExitStatus())`; any other
error exits 1; a nil error falls through to exit 0. -/
def shellModeExitCode (waitResult : Option SessionError) : Nat :=
  match waitResult with
  | some (.exitError n) => n
  | some (.otherError _) => 1
  | none => 0

/-- C4 (counterexample): in the non-empty-command branch the client does not
surface a remote non-zero exit status as a distinguishable outcome — a
remote exit status 3 yields local exit code 1, not 3, the same code a
connection-level failure yields (the two outcomes are merged). -/
theorem exec_mode_merges_exit_status_with_failure :
    execModeExitCode (some (SessionError.exitError 3)) ≠ 3 ∧
    execModeExitCode (some (SessionError.exitError 3)) =
      execModeExitCode (some (SessionError.otherError "connection reset")) := by
  decide

/-- C4 (amended): the client mirrors the remote session's reported exit
status only in the interactive-shell branch, where an `ExitError` with
status `n` produces local exit code `n` and any other session error the
generic code 1; in the non-empty-command branch every `session.Run` error —
a remote exit status included — produces the generic exit code 1, and
success produces 0 in both branches. -/
theorem client_exit_code_semantics (n : Nat) (e : SessionError) (msg : String) :
    execModeExitCode (some e) = 1 ∧
    execModeExitCode none = 0 ∧
    shellModeExitCode (some (SessionError.exitError n)) = n ∧
    shellModeExitCode (some (SessionError.otherError msg)) = 1 ∧
    shellModeExitCode none = 0 := by
  cases e <;> simp [execModeExitCode, shellModeExitCode]

end Gossh
